import Mathlib

/-
Verification of the BLDC motor sizing / electrical model
(src/hyperloop/Python/pod/drivetrain/electric_motor.py).

The three OpenMDAO components are embedded as functions over the reals:
  * MotorSize.solve_nonlinear  -> motorSizeSolve
  * Motor.solve_nonlinear      -> motorSolve
  * MotorBalance.apply_nonlinear -> motorBalanceResid
OpenMDAO components write their outputs into a persistent `unknowns`
vector, and `MotorSize.solve_nonlinear` also READS some of its own
outputs (w_operating, d_base, l_base) before writing them, so the
faithful embedding of that evaluation is a function of the design
parameters AND the previously stored output vector.
-/

noncomputable section

/-- Design parameters fed to the motor group (the `params` side of the
components): all the caller-supplied quantities. -/
structure DesignParams where
  max_rpm : ℝ
  design_power : ℝ
  max_current : ℝ
  n_phases : ℝ
  speed : ℝ
  kappa : ℝ
  pole_pairs : ℝ
  L_D_ratio : ℝ
  core_radius_ratio : ℝ

/-- The output (`unknowns`) vector of the MotorSize component, in the
order the outputs are declared in `MotorSize.__init__`. -/
structure SizingState where
  d_base : ℝ
  l_base : ℝ
  mass : ℝ
  max_torque : ℝ
  torque : ℝ
  w_base : ℝ
  D2L : ℝ
  power_mech : ℝ
  w_operating : ℝ
  power_iron_loss : ℝ
  winding_resistance : ℝ
  power_windage_loss : ℝ

/-- The output vector of the Motor component. -/
structure ElectricalState where
  current : ℝ
  phase_current : ℝ
  voltage : ℝ
  phase_voltage : ℝ
  frequency : ℝ
  power_input : ℝ

/-- MotorSize.calculate_windage_loss: the body is `return 0` (the
Reynolds-number model is commented out in the source). -/
def calculate_windage_loss (w_operating d_base l_base : ℝ) : ℝ := 0

/-- MotorSize.calculate_copper_loss, line for line.  (The local `Rd = 0.0`
of the source is unused and omitted.)  `np.power(max_current, -1.00112597971171)`
is real exponentiation. -/
def calculate_copper_loss (d_base max_current n_phases : ℝ) : ℝ :=
  let As := 688.7 * max_current
  let n_coil_turns := As * Real.pi * d_base / max_current / n_phases / 2
  let resistance_per_km_per_turn := 48.8387296964863 * max_current ^ (-1.00112597971171 : ℝ)
  let winding_len := d_base * 3.14159
  let resistance_per_turn := resistance_per_km_per_turn * winding_len / 1000
  resistance_per_turn * n_coil_turns * n_phases

/-- MotorSize.calculate_iron_loss, line for line; `np.power(x, 2.0)`
is squaring and `np.power(x, 1.5)` is real exponentiation. -/
def calculate_iron_loss (d_base speed l_base core_radius_ratio pole_pairs : ℝ) : ℝ :=
  let stator_core_density := 7650
  let Kh := 0.0275
  let Kc := 1.83e-5
  let Ke := 2.77e-5
  let Bp := 1.22
  let freq := speed * pole_pairs / 60
  let volume_iron := Real.pi * l_base * (d_base / 2) ^ 2 * (1 - core_radius_ratio ^ 2)
  let iron_core_mass := stator_core_density * volume_iron
  (Kh * Bp ^ 2 * freq + Kc * (Bp * freq) ^ 2 + Ke * (Bp * freq) ^ (1.5 : ℝ)) * iron_core_mass

/-- MotorSize.solve_nonlinear.  `u` is the `unknowns` vector as stored
before the call; the source reads `unknowns['w_operating']` (line 309)
before assigning it (line 310), and reads `unknowns['d_base']`,
`unknowns['l_base']` for the loss calculations (lines 313-319) before
assigning them (lines 324-326), so those three reads take the stored
values from `u`. The returned state is the updated `unknowns` vector. -/
def motorSizeSolve (p : DesignParams) (u : SizingState) : SizingState :=
  let w_max := p.max_rpm * 2 * Real.pi / 60
  let w_base := p.kappa * w_max
  let max_torque := p.design_power / w_base
  let torque := p.design_power / w_max
  let power_mech := u.w_operating * torque
  let w_operating := p.speed * 2 * Real.pi / 60
  let power_iron_loss :=
    calculate_iron_loss u.d_base p.speed u.l_base p.core_radius_ratio p.pole_pairs
  let winding_resistance := calculate_copper_loss u.d_base p.max_current p.n_phases
  let power_windage_loss := calculate_windage_loss w_operating u.d_base u.l_base
  let D2L := 293722 * max_torque ^ (0.7592 : ℝ)
  let d_base := (D2L / p.L_D_ratio) ^ ((1 : ℝ) / 3) / 1000
  let l_base := d_base * p.L_D_ratio
  let mass := 0.0000070646 * D2L ^ (0.9386912061 : ℝ)
  ⟨d_base, l_base, mass, max_torque, torque, w_base, D2L,
   power_mech, w_operating, power_iron_loss, winding_resistance, power_windage_loss⟩

/-- Motor.solve_nonlinear, line for line (the source assigns
`unknowns['current']` twice with the same expression; one assignment
suffices). -/
def motorSolve (max_current I0 n_phases w_operating pole_pairs torque
    winding_resistance power_windage_loss power_mech power_iron_loss
    max_torque : ℝ) : ElectricalState :=
  let k_v := (max_current - I0) / max_torque * 30 / Real.pi
  let k_t := 30 / Real.pi * 1 / k_v
  let current := I0 + torque / k_t
  let power_copper_loss := current ^ 2 * winding_resistance
  let power_input := power_mech + power_windage_loss + power_iron_loss + power_copper_loss
  let phase_current := current / n_phases
  let voltage := current * winding_resistance + w_operating / (k_v * Real.pi / 30)
  let phase_voltage := voltage * Real.sqrt (3 / 2)
  let frequency := w_operating / Real.pi * pole_pairs / 60
  ⟨current, phase_current, voltage, phase_voltage, frequency, power_input⟩

/-- MotorBalance.apply_nonlinear: the residual on the I0 state. -/
def motorBalanceResid (current voltage power_input : ℝ) : ℝ :=
  current * voltage - power_input

/-- Absolute tolerance configured on the Newton solver in
MotorGroup.__init__ (`atol` option, 0.0001). -/
def newton_atol : ℝ := 0.0001

/-- Iteration cap configured on the Newton solver in MotorGroup.__init__. -/
def newton_maxiter : ℕ := 1000

/-- Iteration cap configured on the ScipyGMRES linear solver in
MotorGroup.__init__. -/
def gmres_maxiter : ℕ := 100

/-- Initial value of the no-load-current state I0, declared in
MotorBalance.__init__ (`add_state('I0', val=40.0, ...)`). -/
def I0_init : ℝ := 40.0

/-- Scalar solver iteration state: the no-load-current unknown and the
iteration counter. -/
structure SolverState where
  I0 : ℝ
  iteration : ℕ

/-- Modelled from the spec: the CoupledSolver's INIT state — I0 := 40.0
(the value declared on the I0 state of MotorBalance), iteration := 0. -/
def solverInit : SolverState := ⟨I0_init, 0⟩

/-- Outcome of a coupled solve: either converged (final I0 and iteration
count) or a non-convergence error carrying the last I0 guess and residual. -/
inductive SolveOutcome where
  | converged : ℝ → ℕ → SolveOutcome
  | nonConvergence : ℝ → ℝ → SolveOutcome

/-- Modelled from the spec: the Newton iteration of the external solver
(the `Newton` class configured in MotorGroup.__init__ is not part of this
repository).  Each iteration declares convergence exactly when the
absolute residual is at most `newton_atol`; otherwise it applies the
Newton update `step` and recurses; exhausting the fuel (the iteration
cap) yields a non-convergence error, never a partial converged result. -/
def newtonRun (step resid : ℝ → ℝ) : ℕ → SolverState → SolveOutcome
  | 0, s => SolveOutcome.nonConvergence s.I0 (resid s.I0)
  | Nat.succ n, s =>
    if |resid s.I0| ≤ newton_atol then SolveOutcome.converged s.I0 s.iteration
    else newtonRun step resid n ⟨step s.I0, s.iteration + 1⟩

/-- Modelled from the spec: a full coupled solve runs the Newton loop
from the INIT state with the configured iteration cap. -/
def solveMotor (step resid : ℝ → ℝ) : SolveOutcome :=
  newtonRun step resid newton_maxiter solverInit

/-- Modelled from the spec: the external Newton solver declares the
coupled system converged exactly when the absolute residual is at most
the configured absolute tolerance. -/
def newtonDeclaresConverged (resid : ℝ) : Prop := |resid| ≤ newton_atol

/-- If the residual is nowhere within tolerance, the Newton loop always
ends in a nonConvergence outcome, whatever the fuel and start state. -/
theorem newtonRun_nonconv (step resid : ℝ → ℝ)
    (h : ∀ x, newton_atol < |resid x|) :
    ∀ (n : ℕ) (s : SolverState), ∃ I r,
      newtonRun step resid n s = SolveOutcome.nonConvergence I r := by
  intro n
  induction n with
  | zero => intro s; exact ⟨s.I0, resid s.I0, rfl⟩
  | succ n ih =>
    intro s
    have hs : ¬ |resid s.I0| ≤ newton_atol := not_le.mpr (h s.I0)
    simpa [newtonRun, hs] using ih ⟨step s.I0, s.iteration + 1⟩

/-- Claim C6: in every MotorSize evaluation the sizing quantities satisfy
D2L = 293722·max_torque^0.7592, d_base = (D2L/L_D_ratio)^(1/3)/1000,
l_base = d_base·L_D_ratio and mass = 0.0000070646·D2L^0.9386912061,
with these literal constants. -/
theorem claim_C6_sizing_formulas (p : DesignParams) (u : SizingState) :
    (motorSizeSolve p u).D2L = 293722 * (motorSizeSolve p u).max_torque ^ (0.7592 : ℝ) ∧
    (motorSizeSolve p u).d_base
      = ((motorSizeSolve p u).D2L / p.L_D_ratio) ^ ((1 : ℝ) / 3) / 1000 ∧
    (motorSizeSolve p u).l_base = (motorSizeSolve p u).d_base * p.L_D_ratio ∧
    (motorSizeSolve p u).mass = 0.0000070646 * (motorSizeSolve p u).D2L ^ (0.9386912061 : ℝ) :=
  ⟨rfl, rfl, rfl, rfl⟩

/-- Claim C5: Motor.solve_nonlinear computes, for every input, the
electrical state given by k_v = (max_current − I0)/max_torque·30/π,
k_t = (30/π)/k_v, current = I0 + torque/k_t, phase_current = current/n_phases,
voltage = current·winding_resistance + w_operating/(k_v·π/30),
phase_voltage = voltage·√(3/2), frequency = w_operating/π·pole_pairs/60,
power_input = power_mech + power_windage_loss + power_iron_loss
+ current²·winding_resistance. -/
theorem claim_C5_electrical_formulas
    (mc I0 nph w pp tq R wl pm il mt : ℝ) :
    (motorSolve mc I0 nph w pp tq R wl pm il mt).current
        = I0 + tq / (30 / Real.pi / ((mc - I0) / mt * 30 / Real.pi)) ∧
    (motorSolve mc I0 nph w pp tq R wl pm il mt).phase_current
        = (motorSolve mc I0 nph w pp tq R wl pm il mt).current / nph ∧
    (motorSolve mc I0 nph w pp tq R wl pm il mt).voltage
        = (motorSolve mc I0 nph w pp tq R wl pm il mt).current * R
          + w / ((mc - I0) / mt * 30 / Real.pi * Real.pi / 30) ∧
    (motorSolve mc I0 nph w pp tq R wl pm il mt).phase_voltage
        = (motorSolve mc I0 nph w pp tq R wl pm il mt).voltage * Real.sqrt (3 / 2) ∧
    (motorSolve mc I0 nph w pp tq R wl pm il mt).frequency
        = w / Real.pi * pp / 60 ∧
    (motorSolve mc I0 nph w pp tq R wl pm il mt).power_input
        = pm + wl + il
          + (motorSolve mc I0 nph w pp tq R wl pm il mt).current ^ 2 * R := by
  refine ⟨?_, rfl, rfl, rfl, rfl, rfl⟩
  show I0 + tq / (30 / Real.pi * 1 / ((mc - I0) / mt * 30 / Real.pi)) = _
  rw [mul_one]

/-- Claim C10: calculate_copper_loss does not depend on n_phases — the
per-phase division inside the coil-turn count cancels against the final
multiplication by n_phases. -/
theorem claim_C10_copper_loss_phase_independent
    (d mc n1 n2 : ℝ) (hd : 0 < d) (hmc : 0 < mc) (h1 : 0 < n1) (h2 : 0 < n2) :
    calculate_copper_loss d mc n1 = calculate_copper_loss d mc n2 := by
  simp only [calculate_copper_loss]
  field_simp
  ring

/-- Claim C10 witness: concrete instance with phase counts 1 and 2. -/
theorem claim_C10_witness :
    (0 : ℝ) < 1 ∧ calculate_copper_loss 1 1 1 = calculate_copper_loss 1 1 2 :=
  ⟨by norm_num,
   claim_C10_copper_loss_phase_independent 1 1 1 2 (by norm_num) (by norm_num)
     (by norm_num) (by norm_num)⟩

/-- Claim C3: the energy-balance residual is exactly
current·voltage − power_input, the solver declares convergence exactly
when its absolute value is at most 1e-4, and the Newton iteration cap
is 1000. -/
theorem claim_C3_residual_and_convergence (c v pin : ℝ) :
    motorBalanceResid c v pin = c * v - pin ∧
    (newtonDeclaresConverged (motorBalanceResid c v pin) ↔ |c * v - pin| ≤ 1e-4) ∧
    newton_maxiter = 1000 := by
  refine ⟨rfl, ?_, rfl⟩
  unfold newtonDeclaresConverged motorBalanceResid newton_atol
  norm_num

/-- Example design parameters, the values set in the source's __main__
block: max_rpm=2500, design_power=110000, max_current=450, n_phases=3,
speed=1900, kappa=0.5, pole_pairs=6, L_D_ratio=0.83, core_radius_ratio=0.7. -/
def exampleParams : DesignParams := ⟨2500, 110000, 450, 3, 1900, 0.5, 6, 0.83, 0.7⟩

/-- The default output values declared by add_output in MotorSize.__init__
(d_base=0.48, l_base=0.4, mass=0, max_torque=0, torque=1000, w_base=3000,
D2L=1, power_mech=0, w_operating=0, power_iron_loss=0,
winding_resistance=0, power_windage_loss=0): the stored unknowns before
the first evaluation. -/
def defaultSizing : SizingState := ⟨0.48, 0.4, 0, 0, 1000, 3000, 1, 0, 0, 0, 0, 0⟩

/-- Claim C1 fails on the code: solve_nonlinear reads
unknowns['w_operating'] (line 309) before assigning it (line 310), so on
the first evaluation (stored w_operating = 0, its declared default)
power_mech is 0·torque = 0, and in particular power_mech differs from
the product of the w_operating and torque computed in that same
evaluation. -/
theorem claim_C1_power_mech_stale :
    (motorSizeSolve exampleParams defaultSizing).power_mech = 0 ∧
    (motorSizeSolve exampleParams defaultSizing).power_mech
      ≠ (motorSizeSolve exampleParams defaultSizing).w_operating
        * (motorSizeSolve exampleParams defaultSizing).torque := by
  have h1 : (motorSizeSolve exampleParams defaultSizing).power_mech = 0 := by
    simp [motorSizeSolve, defaultSizing]
  have hw : (motorSizeSolve exampleParams defaultSizing).w_operating
      = 1900 * 2 * Real.pi / 60 := rfl
  have ht : (motorSizeSolve exampleParams defaultSizing).torque
      = 110000 / (2500 * 2 * Real.pi / 60) := rfl
  refine ⟨h1, ?_⟩
  rw [h1, hw, ht]
  have hpos : 0 < 1900 * 2 * Real.pi / 60 * (110000 / (2500 * 2 * Real.pi / 60)) := by
    positivity
  exact ne_of_lt hpos

/-- Benign design parameters (all fields 1, core_radius_ratio 0) used to
exhibit the dependence of a MotorSize evaluation on stored outputs. -/
def pStored : DesignParams := ⟨1, 1, 1, 1, 1, 1, 1, 1, 0⟩

/-- A stored unknowns vector with d_base = 0. -/
def storedA : SizingState := ⟨0, 0, 0, 0, 0, 0, 0, 0, 0, 0, 0, 0⟩

/-- A stored unknowns vector with d_base = 1, otherwise as storedA. -/
def storedB : SizingState := ⟨1, 0, 0, 0, 0, 0, 0, 0, 0, 0, 0, 0⟩

/-- Claim C4 fails on the code: winding_resistance is computed (line 316)
from the stored unknowns['d_base'] before d_base is assigned (line 324),
so two evaluations with identical DesignParameters but different stored
output vectors give different winding_resistance — the evaluation is not
a function of DesignParameters alone, and the losses are not computed
from the d_base back-solved from D2L in the same evaluation. -/
theorem claim_C4_sizing_depends_on_stored_state :
    (motorSizeSolve pStored storedA).winding_resistance
      ≠ (motorSizeSolve pStored storedB).winding_resistance := by
  have ha : (motorSizeSolve pStored storedA).winding_resistance = 0 := by
    simp [motorSizeSolve, calculate_copper_loss, storedA, pStored]
  have hb' : (motorSizeSolve pStored storedB).winding_resistance
      = 48.8387296964863 * (1 : ℝ) ^ (-1.00112597971171 : ℝ) * (1 * 3.14159) / 1000
        * (688.7 * 1 * Real.pi * 1 / 1 / 1 / 2) * 1 := rfl
  have hb : 0 < (motorSizeSolve pStored storedB).winding_resistance := by
    rw [hb', Real.one_rpow]
    positivity
  rw [ha]
  exact ne_of_lt hb

/-- Claim C2 counterexample: at the claim's own failure scenario
(max_current = 1, I0 = 40, with max_torque = 1, torque = 1, zero losses
and zero winding resistance) Motor.solve_nonlinear returns an electrical
state — current evaluates to 1 — rather than raising any error: the
source has no DomainError guard at all. -/
theorem claim_C2_counterexample :
    (motorSolve 1 40 3 0 6 1 0 0 0 0 1).current = 1 := by
  have h : (motorSolve 1 40 3 0 6 1 0 0 0 0 1).current
      = 40 + 1 / (30 / Real.pi * 1 / (((1 : ℝ) - 40) / 1 * 30 / Real.pi)) := rfl
  have hπ := Real.pi_ne_zero
  rw [h, mul_one, div_div_eq_mul_div]
  field_simp

/-- Claim C2 amended: for max_current ≤ I0 (and max_torque ≠ 0) the model
does not raise; it returns the state computed with non-positive k_v, whose
current is I0 + torque·(max_current − I0)/max_torque. -/
theorem claim_C2_no_guard (mc I0 nph w pp tq R wl pm il mt : ℝ)
    (hle : mc ≤ I0) (hmt : mt ≠ 0) :
    (motorSolve mc I0 nph w pp tq R wl pm il mt).current
      = I0 + tq * (mc - I0) / mt := by
  have h : (motorSolve mc I0 nph w pp tq R wl pm il mt).current
      = I0 + tq / (30 / Real.pi * 1 / ((mc - I0) / mt * 30 / Real.pi)) := rfl
  have hπ := Real.pi_ne_zero
  rw [h, mul_one, div_div_eq_mul_div]
  field_simp
  ring

/-- Claim C2 witness: the amended statement at the concrete failure
scenario max_current = 1, I0 = 40, max_torque = 1. -/
theorem claim_C2_witness :
    (1 : ℝ) ≤ 40 ∧ (1 : ℝ) ≠ 0 ∧
    (motorSolve 1 40 3 0 6 1 0 0 0 0 1).current = 40 + 1 * ((1 : ℝ) - 40) / 1 :=
  ⟨by norm_num, by norm_num,
   claim_C2_no_guard 1 40 3 0 6 1 0 0 0 0 1 (by norm_num) (by norm_num)⟩

/-- Design parameters with core_radius_ratio = 1 (all other fields 1). -/
def pCore : DesignParams := ⟨1, 1, 1, 1, 1, 1, 1, 1, 1⟩

/-- Claim C7 counterexample: with core_radius_ratio = 1 the evaluation
does not raise anything — it produces a numeric SizingState whose
power_iron_loss is 0 (the (1 − core_radius_ratio²) factor vanishes). -/
theorem claim_C7_counterexample :
    (motorSizeSolve pCore defaultSizing).power_iron_loss = 0 := by
  simp [motorSizeSolve, calculate_iron_loss, pCore]

/-- Claim C7 amended: core_radius_ratio at or above 1 is accepted, never
rejected: the evaluation returns a numeric SizingState whose iron loss
carries the non-positive factor (1 − core_radius_ratio²), hence (for
non-negative speed, pole_pairs and stored l_base) power_iron_loss ≤ 0
instead of an error. -/
theorem claim_C7_iron_loss_nonpos (p : DesignParams) (u : SizingState)
    (hr : 1 ≤ p.core_radius_ratio) (hs : 0 ≤ p.speed)
    (hpp : 0 ≤ p.pole_pairs) (hl : 0 ≤ u.l_base) :
    (motorSizeSolve p u).power_iron_loss ≤ 0 := by
  show (0.0275 * (1.22 : ℝ) ^ 2 * (p.speed * p.pole_pairs / 60)
      + 1.83e-5 * ((1.22 : ℝ) * (p.speed * p.pole_pairs / 60)) ^ 2
      + 2.77e-5 * ((1.22 : ℝ) * (p.speed * p.pole_pairs / 60)) ^ (1.5 : ℝ))
      * (7650 * (Real.pi * u.l_base * (u.d_base / 2) ^ 2
          * (1 - p.core_radius_ratio ^ 2))) ≤ 0
  have hf : 0 ≤ p.speed * p.pole_pairs / 60 := by
    have := mul_nonneg hs hpp
    linarith
  have h1 : 0 ≤ 0.0275 * (1.22 : ℝ) ^ 2 * (p.speed * p.pole_pairs / 60) :=
    mul_nonneg (by norm_num) hf
  have h2 : 0 ≤ 1.83e-5 * ((1.22 : ℝ) * (p.speed * p.pole_pairs / 60)) ^ 2 :=
    mul_nonneg (by norm_num) (sq_nonneg _)
  have h3 : 0 ≤ 2.77e-5 * ((1.22 : ℝ) * (p.speed * p.pole_pairs / 60)) ^ (1.5 : ℝ) :=
    mul_nonneg (by norm_num) (Real.rpow_nonneg (mul_nonneg (by norm_num) hf) _)
  have hcoeff : 0 ≤ 0.0275 * (1.22 : ℝ) ^ 2 * (p.speed * p.pole_pairs / 60)
      + 1.83e-5 * ((1.22 : ℝ) * (p.speed * p.pole_pairs / 60)) ^ 2
      + 2.77e-5 * ((1.22 : ℝ) * (p.speed * p.pole_pairs / 60)) ^ (1.5 : ℝ) := by
    linarith
  have hrr : 1 - p.core_radius_ratio ^ 2 ≤ 0 := by nlinarith
  have hgeom : 0 ≤ Real.pi * u.l_base * (u.d_base / 2) ^ 2 :=
    mul_nonneg (mul_nonneg Real.pi_pos.le hl) (sq_nonneg _)
  have hmass : 7650 * (Real.pi * u.l_base * (u.d_base / 2) ^ 2
      * (1 - p.core_radius_ratio ^ 2)) ≤ 0 := by
    have := mul_nonpos_iff.mpr (Or.inl ⟨hgeom, hrr⟩)
    nlinarith
  exact mul_nonpos_iff.mpr (Or.inl ⟨hcoeff, hmass⟩)

/-- Claim C7 witness: the amended statement at core_radius_ratio = 1 with
the default stored outputs. -/
theorem claim_C7_witness :
    (1 : ℝ) ≤ 1 ∧ (0 : ℝ) ≤ 0.4 ∧
    (motorSizeSolve pCore defaultSizing).power_iron_loss ≤ 0 :=
  ⟨le_refl 1, by norm_num,
   claim_C7_iron_loss_nonpos pCore defaultSizing (by norm_num [pCore])
     (by norm_num [pCore]) (by norm_num [pCore]) (by norm_num [defaultSizing])⟩

/-- Claim C8: the solver starts from I0 = 40.0 with iteration count 0,
the Newton cap is 1000 and the linear-solve cap is 100, and a residual
that never meets the tolerance makes the solve end in a nonConvergence
error outcome — never a silently returned converged result. -/
theorem claim_C8_solver_caps_and_nonconvergence (step resid : ℝ → ℝ)
    (h : ∀ x, newton_atol < |resid x|) :
    solverInit.I0 = 40 ∧ solverInit.iteration = 0 ∧
    newton_maxiter = 1000 ∧ gmres_maxiter = 100 ∧
    ∃ I r, solveMotor step resid = SolveOutcome.nonConvergence I r := by
  refine ⟨by norm_num [solverInit, I0_init], rfl, rfl, rfl, ?_⟩
  exact newtonRun_nonconv step resid h newton_maxiter solverInit

/-- Claim C8 witness: the residual constantly 1 never meets the
tolerance, and the solve with identity update ends in nonConvergence. -/
theorem claim_C8_witness :
    (∀ x : ℝ, newton_atol < |(fun _ : ℝ => (1 : ℝ)) x|) ∧
    ∃ I r, solveMotor (fun x => x) (fun _ : ℝ => (1 : ℝ))
      = SolveOutcome.nonConvergence I r := by
  have hh : ∀ x : ℝ, newton_atol < |(fun _ : ℝ => (1 : ℝ)) x| := by
    intro x
    show newton_atol < |(1 : ℝ)|
    rw [abs_one]
    norm_num [newton_atol]
  exact ⟨hh,
    (claim_C8_solver_caps_and_nonconvergence (fun x => x) (fun _ : ℝ => (1 : ℝ)) hh).2.2.2.2⟩

/-- Claim C9: with all other parameters identical (and max_rpm, kappa,
design_power positive), a strictly larger design_power gives strictly
larger max_torque and strictly larger mass. -/
theorem claim_C9_design_power_monotonic (p q : DesignParams) (u : SizingState)
    (h_rpm : p.max_rpm = q.max_rpm) (h_mc : p.max_current = q.max_current)
    (h_nph : p.n_phases = q.n_phases) (h_speed : p.speed = q.speed)
    (h_kappa : p.kappa = q.kappa) (h_pp : p.pole_pairs = q.pole_pairs)
    (h_ld : p.L_D_ratio = q.L_D_ratio)
    (h_crr : p.core_radius_ratio = q.core_radius_ratio)
    (hrpm_pos : 0 < p.max_rpm) (hkappa_pos : 0 < p.kappa)
    (hdp_pos : 0 < p.design_power) (hdp_lt : p.design_power < q.design_power) :
    (motorSizeSolve p u).max_torque < (motorSizeSolve q u).max_torque ∧
    (motorSizeSolve p u).mass < (motorSizeSolve q u).mass := by
  have hwb : 0 < p.kappa * (p.max_rpm * 2 * Real.pi / 60) :=
    mul_pos hkappa_pos
      (div_pos (mul_pos (mul_pos hrpm_pos two_pos) Real.pi_pos) (by norm_num))
  have hmtp : 0 < p.design_power / (p.kappa * (p.max_rpm * 2 * Real.pi / 60)) :=
    div_pos hdp_pos hwb
  have hlt : p.design_power / (p.kappa * (p.max_rpm * 2 * Real.pi / 60))
      < q.design_power / (p.kappa * (p.max_rpm * 2 * Real.pi / 60)) :=
    (div_lt_div_iff_of_pos_right hwb).mpr hdp_lt
  have hD : 293722 * (p.design_power
        / (p.kappa * (p.max_rpm * 2 * Real.pi / 60))) ^ (0.7592 : ℝ)
      < 293722 * (q.design_power
        / (p.kappa * (p.max_rpm * 2 * Real.pi / 60))) ^ (0.7592 : ℝ) :=
    mul_lt_mul_of_pos_left (Real.rpow_lt_rpow hmtp.le hlt (by norm_num)) (by norm_num)
  have hDp : 0 < 293722 * (p.design_power
      / (p.kappa * (p.max_rpm * 2 * Real.pi / 60))) ^ (0.7592 : ℝ) :=
    mul_pos (by norm_num) (Real.rpow_pos_of_pos hmtp _)
  have hmass : 0.0000070646 * (293722 * (p.design_power
        / (p.kappa * (p.max_rpm * 2 * Real.pi / 60))) ^ (0.7592 : ℝ)) ^ (0.9386912061 : ℝ)
      < 0.0000070646 * (293722 * (q.design_power
        / (p.kappa * (p.max_rpm * 2 * Real.pi / 60))) ^ (0.7592 : ℝ)) ^ (0.9386912061 : ℝ) :=
    mul_lt_mul_of_pos_left (Real.rpow_lt_rpow hDp.le hD (by norm_num)) (by norm_num)
  constructor
  · show p.design_power / (p.kappa * (p.max_rpm * 2 * Real.pi / 60))
        < q.design_power / (q.kappa * (q.max_rpm * 2 * Real.pi / 60))
    rw [← h_kappa, ← h_rpm]
    exact hlt
  · show 0.0000070646 * (293722 * (p.design_power
          / (p.kappa * (p.max_rpm * 2 * Real.pi / 60))) ^ (0.7592 : ℝ)) ^ (0.9386912061 : ℝ)
        < 0.0000070646 * (293722 * (q.design_power
          / (q.kappa * (q.max_rpm * 2 * Real.pi / 60))) ^ (0.7592 : ℝ)) ^ (0.9386912061 : ℝ)
    rw [← h_kappa, ← h_rpm]
    exact hmass

/-- Parameters for the C9 witness: design_power 1. -/
def pMono : DesignParams := ⟨60, 1, 1, 1, 1, 1, 1, 1, 0⟩

/-- Parameters for the C9 witness: identical to pMono except design_power 2. -/
def qMono : DesignParams := ⟨60, 2, 1, 1, 1, 1, 1, 1, 0⟩

/-- Claim C9 witness: concrete instance with design_power raised from 1 to 2. -/
theorem claim_C9_witness :
    (0 : ℝ) < 1 ∧ (1 : ℝ) < 2 ∧
    (motorSizeSolve pMono defaultSizing).max_torque
      < (motorSizeSolve qMono defaultSizing).max_torque ∧
    (motorSizeSolve pMono defaultSizing).mass
      < (motorSizeSolve qMono defaultSizing).mass := by
  have h := claim_C9_design_power_monotonic pMono qMono defaultSizing rfl rfl rfl rfl
    rfl rfl rfl rfl (by norm_num [pMono]) (by norm_num [pMono])
    (by norm_num [pMono]) (by norm_num [pMono, qMono])
  exact ⟨by norm_num, by norm_num, h.1, h.2⟩
